import Mathlib

/-!
Verification development for the `luca` learning-companion repository.

The embedding covers, faithfully to the Python sources:

* `content_generator.py` — the static local content table, the navigation
  helpers, the local lesson/exercise generators and the local answer helper;
* `ai_interface.py` — the remote-first content provider (`_request_from_gemini`,
  `generate_lesson`, `generate_exercises`, `answer_question`), with the remote
  HTTP outcome, the `json.loads` parser and the stateful `random.shuffle`
  modelled as explicit environment parameters;
* `data_store.py` — `StudentProgress`, `save_progress`, `load_progress`, with
  the filesystem modelled as an explicit path-to-JSON-value map (the
  `json.dump`/`json.load` text round trip is elided: both sides operate on the
  structured JSON value);
* `main.py` — the progress-recording transitions `_open_lesson` (its
  progress-update tail) and `_record_test`.

Python runtime values that flow through JSON are modelled by the `PyValue`
type; raising code is modelled with `Except`/`Option`.
-/

/-- A Python value as it can appear in JSON payloads and in the progress
store: `None`, booleans, integers, strings, lists and string-keyed dicts
(dicts are association lists; Python dicts have unique keys and preserve
insertion order). -/
inductive PyValue where
  | null
  | bool (b : Bool)
  | int (n : Int)
  | str (s : String)
  | list (xs : List PyValue)
  | dict (entries : List (String × PyValue))

mutual

/-- Decidable structural equality on `PyValue`.  On the values handled in this
development (dicts built with a fixed key order) it coincides with Python `==`. -/
def pyDecEq : (a b : PyValue) → Decidable (a = b)
  | .null, .null => isTrue rfl
  | .bool x, .bool y =>
    match decEq x y with
    | isTrue h => isTrue (congrArg PyValue.bool h)
    | isFalse h => isFalse fun hh => h (PyValue.bool.inj hh)
  | .int x, .int y =>
    match decEq x y with
    | isTrue h => isTrue (congrArg PyValue.int h)
    | isFalse h => isFalse fun hh => h (PyValue.int.inj hh)
  | .str x, .str y =>
    match decEq x y with
    | isTrue h => isTrue (congrArg PyValue.str h)
    | isFalse h => isFalse fun hh => h (PyValue.str.inj hh)
  | .list xs, .list ys =>
    match pyDecEqList xs ys with
    | isTrue h => isTrue (congrArg PyValue.list h)
    | isFalse h => isFalse fun hh => h (PyValue.list.inj hh)
  | .dict xs, .dict ys =>
    match pyDecEqEntries xs ys with
    | isTrue h => isTrue (congrArg PyValue.dict h)
    | isFalse h => isFalse fun hh => h (PyValue.dict.inj hh)
  | .null, .bool _ | .null, .int _ | .null, .str _ | .null, .list _ | .null, .dict _ => isFalse nofun
  | .bool _, .null | .bool _, .int _ | .bool _, .str _ | .bool _, .list _ | .bool _, .dict _ => isFalse nofun
  | .int _, .null | .int _, .bool _ | .int _, .str _ | .int _, .list _ | .int _, .dict _ => isFalse nofun
  | .str _, .null | .str _, .bool _ | .str _, .int _ | .str _, .list _ | .str _, .dict _ => isFalse nofun
  | .list _, .null | .list _, .bool _ | .list _, .int _ | .list _, .str _ | .list _, .dict _ => isFalse nofun
  | .dict _, .null | .dict _, .bool _ | .dict _, .int _ | .dict _, .str _ | .dict _, .list _ => isFalse nofun

/-- Decidable equality on lists of `PyValue`. -/
def pyDecEqList : (xs ys : List PyValue) → Decidable (xs = ys)
  | [], [] => isTrue rfl
  | [], _ :: _ => isFalse nofun
  | _ :: _, [] => isFalse nofun
  | x :: xs, y :: ys =>
    match pyDecEq x y with
    | isFalse h1 => isFalse fun hh => h1 (by injection hh)
    | isTrue h1 =>
      match pyDecEqList xs ys with
      | isTrue h2 => isTrue (by rw [h1, h2])
      | isFalse h2 => isFalse fun hh => h2 (by injection hh)

/-- Decidable equality on dict entry lists. -/
def pyDecEqEntries : (xs ys : List (String × PyValue)) → Decidable (xs = ys)
  | [], [] => isTrue rfl
  | [], _ :: _ => isFalse nofun
  | _ :: _, [] => isFalse nofun
  | (k, v) :: xs, (l, w) :: ys =>
    match decEq k l with
    | isFalse h0 => isFalse fun hh => by
        injection hh with h1 h2
        exact h0 (congrArg Prod.fst h1)
    | isTrue h0 =>
      match pyDecEq v w with
      | isFalse h1 => isFalse fun hh => by
          injection hh with ha hb
          exact h1 (congrArg Prod.snd ha)
      | isTrue h1 =>
        match pyDecEqEntries xs ys with
        | isTrue h2 => isTrue (by rw [h0, h1, h2])
        | isFalse h2 => isFalse fun hh => by
            injection hh with ha hb
            exact h2 hb

end

instance : DecidableEq PyValue := pyDecEq

/-- `d.get(k)` on a Python dict, as lookup of the first matching key in the
association list (keys are unique in Python dicts). -/
def assocGet {κ α : Type} [DecidableEq κ] : List (κ × α) → κ → Option α
  | [], _ => none
  | (k, v) :: rest, key => if key = k then some v else assocGet rest key

/-- Python truthiness (`bool(v)`) for the values of `PyValue`. -/
def pyTruthy : PyValue → Bool
  | .null => false
  | .bool b => b
  | .int n => !(n == 0)
  | .str s => !(s == "")
  | .list xs => !xs.isEmpty
  | .dict d => !d.isEmpty

/-- Iterating a Python value with `for x in v`: lists yield their elements,
strings yield their characters as one-character strings, dicts yield their
keys; `None`, booleans and integers are not iterable (`TypeError`). -/
def pyIter : PyValue → Except Unit (List PyValue)
  | .list xs => .ok xs
  | .str s => .ok (s.data.map fun c => .str (String.singleton c))
  | .dict d => .ok (d.map fun kv => .str kv.1)
  | _ => .error ()

mutual

/-- Python `repr` of a value (string escaping inside quotes is elided; the
development never evaluates it on strings needing escapes). -/
def pyRepr : PyValue → String
  | .null => "None"
  | .bool true => "True"
  | .bool false => "False"
  | .int n => toString n
  | .str s => "\x27" ++ s ++ "\x27"
  | .list xs => "[" ++ pyReprSeq xs ++ "]"
  | .dict d => "\x7b" ++ pyReprEntries d ++ "\x7d"

/-- Comma-separated reprs of list elements. -/
def pyReprSeq : List PyValue → String
  | [] => ""
  | [x] => pyRepr x
  | x :: rest => pyRepr x ++ ", " ++ pyReprSeq rest

/-- Comma-separated reprs of dict entries. -/
def pyReprEntries : List (String × PyValue) → String
  | [] => ""
  | [(k, v)] => "\x27" ++ k ++ "\x27: " ++ pyRepr v
  | (k, v) :: rest => "\x27" ++ k ++ "\x27: " ++ pyRepr v ++ ", " ++ pyReprEntries rest

end

/-- Python `str(v)`: identity on strings, `repr` on containers. -/
def pyStr : PyValue → String
  | .str s => s
  | .null => "None"
  | .bool true => "True"
  | .bool false => "False"
  | .int n => toString n
  | .list xs => pyRepr (.list xs)
  | .dict d => pyRepr (.dict d)

/-- `charsPref n h = true` iff `n` is a prefix of `h` (character lists). -/
def charsPref : List Char → List Char → Bool
  | [], _ => true
  | _ :: _, [] => false
  | a :: as, b :: bs => a == b && charsPref as bs

/-- `charsIn n h = true` iff `n` occurs as a contiguous substring of `h`. -/
def charsIn (n : List Char) : List Char → Bool
  | [] => charsPref n []
  | b :: bs => charsPref n (b :: bs) || charsIn n bs

/-- The Python operator `needle in hay` on strings. -/
def pyIn (needle hay : String) : Bool := charsIn needle.data hay.data

/-- Drop leading whitespace characters. -/
def dropWs : List Char → List Char
  | [] => []
  | c :: cs => if c.isWhitespace then dropWs cs else c :: cs

/-- Python `str.strip()`: remove whitespace from both ends. -/
def pyStrip (s : String) : String :=
  ⟨((dropWs s.data).reverse |> dropWs).reverse⟩

/-- Insert into a `le`-sorted list. -/
def insertLe {α : Type} (le : α → α → Bool) (x : α) : List α → List α
  | [] => [x]
  | y :: ys => if le x y then x :: y :: ys else y :: insertLe le x ys

/-- Insertion sort; models Python `sorted`. -/
def sortLe {α : Type} (le : α → α → Bool) : List α → List α
  | [] => []
  | x :: xs => insertLe le x (sortLe le xs)

/-- Comparison used by `sorted` on integers. -/
def intLe (a b : Int) : Bool := decide (a ≤ b)

/-- Lexicographic comparison of character lists by code point. -/
def charsLe : List Char → List Char → Bool
  | [], _ => true
  | _ :: _, [] => false
  | a :: as, b :: bs => if a == b then charsLe as bs else decide (a < b)

/-- Comparison used by `sorted` on strings (lexicographic by code point, as in
Python). -/
def strLe (a b : String) : Bool := charsLe a.data b.data

/-! ## `content_generator.py` -/

/-- One entry of the local content table: the `lesson` text and the `concept`
summary (`content_generator.py`, values of `LOCAL_CONTENT`). -/
structure ContentEntry where
  lesson : String
  concept : String
deriving DecidableEq

/-- A practice exercise: in the source a dict with keys `question`,
`expected_answer` and `hint`. -/
structure Exercise where
  question : String
  expected_answer : String
  hint : String
deriving DecidableEq

/-- The static table `LOCAL_CONTENT` from `content_generator.py`:
subject → grade → topic → content.  The adjacent Python string literals are
concatenated exactly as in the source. -/
def LOCAL_CONTENT : List (String × List (Int × List (String × ContentEntry))) :=
  [("Mathematics",
    [(3,
      [("Fractions",
        { lesson := "Fractions represent equal parts of a whole. When we write a fraction like 1/2, the number on top (the numerator) tells us how many parts we have and the number on the bottom (the denominator) tells us how many equal parts the whole is divided into."
          concept := "Understanding halves, thirds, and quarters of shapes and groups." }),
       ("Multiplication",
        { lesson := "Multiplication is repeated addition. To find 3 × 4, add 4 three times (4 + 4 + 4 = 12). Arrays and equal groups help us visualise multiplication problems."
          concept := "Building fluency with times tables up to 5." })]),
     (4,
      [("Decimals",
        { lesson := "Decimals are another way to write fractions. 0.5 is the same as 1/2 because it represents 5 tenths. Each place to the right of the decimal point is worth ten times less than the place before it."
          concept := "Linking tenths and hundredths to place value charts." })])]),
   ("Science",
    [(3,
      [("Life Cycles",
        { lesson := "Plants and animals go through life cycles. A butterfly starts as an egg, becomes a caterpillar, forms a chrysalis, and emerges as an adult butterfly. Each stage has a special job."
          concept := "Recognising patterns in living things." })]),
     (4,
      [("Energy",
        { lesson := "Energy is the ability to do work. It can take many forms such as light, heat, and movement. Energy can change from one form to another, like when electricity powers a lamp."
          concept := "Observing energy transfers in everyday situations." })])])]

/-- `get_available_grades`: the sorted set of grades appearing under any
subject. -/
def get_available_grades : List Int :=
  sortLe intLe ((LOCAL_CONTENT.map fun p => p.2.map Prod.fst).flatten.dedup)

/-- `get_subjects_for_grade`: subjects whose grade dict contains `grade`,
sorted. -/
def get_subjects_for_grade (grade : Int) : List String :=
  sortLe strLe ((LOCAL_CONTENT.filter fun p => (assocGet p.2 grade).isSome).map Prod.fst)

/-- `get_topics`: the sorted topic keys for a subject and grade (empty-dict
defaults as in the source). -/
def get_topics (subject : String) (grade : Int) : List String :=
  sortLe strLe
    (((assocGet ((assocGet LOCAL_CONTENT subject).getD []) grade).getD []).map Prod.fst)

/-- `_select_content`: nested `.get` lookups with `{}` defaults; `none` models
the `KeyError` raised when the topic is absent (every stored entry is a
non-empty dict, hence truthy, so `if not content` fires exactly on a missed
lookup). -/
def _select_content (subject : String) (grade : Int) (topic : String) : Option ContentEntry :=
  assocGet ((assocGet ((assocGet LOCAL_CONTENT subject).getD []) grade).getD []) topic

/-- `generate_local_lesson`: the f-string assembled by the source, as an
explicit concatenation; `none` propagates the `KeyError` of `_select_content`. -/
def generate_local_lesson (subject : String) (grade : Int) (topic : String) : Option String :=
  (_select_content subject grade topic).map fun content =>
    "Lesson Topic: " ++ (topic ++ ("\nGrade Level: " ++ (toString grade ++ ("\nSubject: " ++
      (subject ++ ("\n\nBig Idea: " ++ (content.concept ++ ("\n\nKey Learning:\n" ++
      (content.lesson ++ "\n\nTry sketching or acting out the idea to help it stick!")))))))))

/-- The type of the `random.shuffle` effect: `content_generator.py` shuffles
the question list in place with the module-global seeded generator; the
generator state is modelled by passing the resulting permutation function
explicitly. -/
abbrev ShuffleFn : Type := List (String × String) → List (String × String)

/-- The `base_questions` list built by `generate_local_exercises`: the two
generic questions (paired with the concept as expected answer) and the
subject/topic-conditional extra question. -/
def base_questions (subject : String) (topic : String) (concept : String) :
    List (String × String) :=
  let base0 : List (String × String) :=
    [("Explain the main idea of " ++ (topic.toLower ++ " in your own words."), concept),
     ("Give a real-life example related to " ++ (topic.toLower ++ "."), concept)]
  if subject == "Mathematics" && pyIn "fraction" topic.toLower then
    base0 ++ [("What fraction of a pizza is left if you eat 3 of 8 slices?", "5/8")]
  else if subject == "Mathematics" && pyIn "multiplication" topic.toLower then
    base0 ++ [("Solve 4 × 6.", "24")]
  else if subject == "Science" && pyIn "energy" topic.toLower then
    base0 ++ [("Name two forms of energy you use at school.", "light and sound")]
  else base0

/-- `generate_local_exercises`: the base questions, the in-place shuffle
(explicit `shuffle` parameter), and the final dict construction.  `none`
propagates the `KeyError` of `_select_content`. -/
def generate_local_exercises (shuffle : ShuffleFn) (subject : String) (grade : Int)
    (topic : String) : Option (List Exercise) :=
  (_select_content subject grade topic).map fun content =>
    (shuffle (base_questions subject topic content.concept)).map fun qa =>
      { question := qa.1, expected_answer := qa.2,
        hint := "Think about: " ++ content.concept }

/-- `answer_question_locally`: keyword matching on the lowered question; the
`context` argument is accepted and never used, exactly as in the source. -/
def answer_question_locally (question : String) (context : String) : String :=
  let question_lower := question.toLower
  if pyIn "fraction" question_lower && pyIn "pizza" question_lower then
    "If 3 of 8 slices are eaten, 5/8 of the pizza remains."
  else if pyIn "4 × 6" question || pyIn "4 x 6" question_lower then
    "4 × 6 equals 24."
  else if pyIn "energy" question_lower then
    "Common forms include light, sound, and heat energy."
  else
    "Think back to the main idea of the lesson. Highlight key words in the question and match them to details from the lesson text."

/-! ## `ai_interface.py` -/

/-- Outcome of the single HTTP POST in `_request_from_gemini`:
`httpError` covers network failures and `raise_for_status` on an error
status, `badJson` a body on which `response.json()` raises, and `ok data`
a successfully decoded JSON body. -/
inductive HttpResult where
  | httpError
  | badJson
  | ok (data : PyValue)

/-- The ambient configuration and external effects of `ai_interface.py`:
the `GEMINI_API_KEY` environment value, the remote outcome for this call,
the `json.loads` parser (modelled as a parameter; the claims only constrain
its result on the relevant text), and the state of the module-global seeded
`random.shuffle` used by the local fallback. -/
structure GeminiEnv where
  apiKey : Option String
  http : HttpResult
  jsonLoads : String → Except Unit PyValue
  shuffle : ShuffleFn

/-- Truthiness of `GEMINI_API_KEY` (`if not GEMINI_API_KEY`): unset or empty
is falsy. -/
def keyTruthy : Option String → Bool
  | none => false
  | some s => !(s == "")

/-- The inner loop of `_request_from_gemini` over `parts`: return the first
part whose `text` field is truthy; a non-dict part raises (`.get` on it is an
`AttributeError`). -/
def scanParts : List PyValue → Except Unit (Option PyValue)
  | [] => .ok none
  | p :: rest =>
    match p with
    | .dict d =>
      match assocGet d "text" with
      | some tv => if pyTruthy tv then .ok (some tv) else scanParts rest
      | none => scanParts rest
    | _ => .error ()

/-- The outer loop of `_request_from_gemini` over `candidates`:
`candidate.get("content", {}).get("parts", [])` then the inner part scan; a
non-dict candidate or a non-dict `content` value raises. -/
def scanCandidates : List PyValue → Except Unit (Option PyValue)
  | [] => .ok none
  | c :: rest =>
    match c with
    | .dict d =>
      match (assocGet d "content").getD (.dict []) with
      | .dict cd =>
        match pyIter ((assocGet cd "parts").getD (.list [])) with
        | .error _ => .error ()
        | .ok parts =>
          match scanParts parts with
          | .error _ => .error ()
          | .ok (some tv) => .ok (some tv)
          | .ok none => scanCandidates rest
      | _ => .error ()
    | _ => .error ()

/-- `_request_from_gemini`: missing/empty key raises, then the HTTP call with
`raise_for_status` and `response.json()`, then
`candidates = data.get("candidates") or []` and the candidate/part scan,
raising `RuntimeError` when no truthy text is found.  The returned value is
the raw `text` field (a `PyValue`, not necessarily a string). -/
def requestFromGemini (env : GeminiEnv) (prompt : String) : Except Unit PyValue :=
  if keyTruthy env.apiKey then
    match env.http with
    | .httpError => .error ()
    | .badJson => .error ()
    | .ok data =>
      match data with
      | .dict d =>
        let cv := (assocGet d "candidates").getD .null
        match pyIter (if pyTruthy cv then cv else .list []) with
        | .error _ => .error ()
        | .ok cands =>
          match scanCandidates cands with
          | .error _ => .error ()
          | .ok (some tv) => .ok tv
          | .ok none => .error ()
      | _ => .error ()
  else .error ()

/-- The lesson prompt of `generate_lesson`. -/
def lessonPrompt (subject : String) (grade : Int) (topic : String) : String :=
  "You are a friendly elementary school teacher. Create a concise lesson for grade "
    ++ toString grade ++ " " ++ subject ++ " learners about " ++ topic
    ++ ". Use inviting language, short paragraphs, and include one practical activity suggestion."

/-- The exercises prompt of `generate_exercises`. -/
def exercisesPrompt (subject : String) (grade : Int) (topic : String) : String :=
  "Create three short practice questions for grade " ++ toString grade ++ " students in "
    ++ subject ++ " about " ++ topic
    ++ ". Respond with a JSON list where each item has keys \x27question\x27, \x27expected_answer\x27, and \x27hint\x27."

/-- The feedback prompt of `answer_question`. -/
def answerPrompt (question : String) (lesson_context : String) (student_answer : String) : String :=
  "You are an encouraging tutor. A student answered a question incorrectly. Provide gentle feedback using the lesson summary and student response.\nLesson summary: "
    ++ lesson_context ++ "\nQuestion: " ++ question ++ "\nStudent answer: " ++ student_answer
    ++ "\nRespond with two short sentences offering guidance."

/-- Embeds a call whose `KeyError` is allowed to propagate (the local
generators are invoked inside the `except` handler, so their exception is not
caught by the surrounding `try`). -/
def exceptOfOption {α : Type} : Option α → Except Unit α
  | some a => .ok a
  | none => .error ()

/-- `generate_lesson`: remote attempt, `.strip()` of the returned text (an
`AttributeError` on a non-string inside the `try` also routes to the
fallback), local lesson on any failure. -/
def generate_lesson (env : GeminiEnv) (subject : String) (grade : Int) (topic : String) :
    Except Unit String :=
  match requestFromGemini env (lessonPrompt subject grade topic) with
  | .ok (.str lesson_text) => .ok (pyStrip lesson_text)
  | _ => exceptOfOption (generate_local_lesson subject grade topic)

/-- The per-entry loop of `generate_exercises`: a non-dict entry raises
`ValueError`; otherwise `question`/`expected_answer` are `str(...).strip()`
of the fields (default `""`) and `hint` is `str(...)` of the field with the
default hint text; entries with a falsy stripped question are dropped. -/
def parseEntries : List PyValue → Except Unit (List Exercise)
  | [] => .ok []
  | e :: rest =>
    match e with
    | .dict d =>
      let question := pyStrip (pyStr ((assocGet d "question").getD (.str "")))
      let answer := pyStrip (pyStr ((assocGet d "expected_answer").getD (.str "")))
      let hint := pyStr ((assocGet d "hint").getD (.str "Use clues from the lesson."))
      match parseEntries rest with
      | .ok tail =>
        .ok (if question == "" then tail
             else { question := question, expected_answer := answer, hint := hint } :: tail)
      | .error er => .error er
    | _ => .error ()

/-- The `try` block of `generate_exercises`: remote attempt, `json.loads` of
the returned text (a non-string raises `TypeError`), the list check, the
per-entry parse, and the `No valid exercises returned` check. -/
def exercisesAttempt (env : GeminiEnv) (subject : String) (grade : Int) (topic : String) :
    Except Unit (List Exercise) :=
  match requestFromGemini env (exercisesPrompt subject grade topic) with
  | .error _ => .error ()
  | .ok rv =>
    match rv with
    | .str response_text =>
      match env.jsonLoads response_text with
      | .error _ => .error ()
      | .ok v =>
        match v with
        | .list entries =>
          match parseEntries entries with
          | .error _ => .error ()
          | .ok parsed => if parsed.isEmpty then .error () else .ok parsed
        | _ => .error ()
    | _ => .error ()

/-- `generate_exercises`: the `try` block above, with the local fallback on
any failure. -/
def generate_exercises (env : GeminiEnv) (subject : String) (grade : Int) (topic : String) :
    Except Unit (List Exercise) :=
  match exercisesAttempt env subject grade topic with
  | .ok parsed => .ok parsed
  | .error _ => exceptOfOption (generate_local_exercises env.shuffle subject grade topic)

/-- `answer_question`: remote attempt with `.strip()`, falling back to
`answer_question_locally(question, lesson_context)`; the local helper cannot
raise, so the operation is total. -/
def answer_question (env : GeminiEnv) (question : String) (lesson_context : String)
    (student_answer : String) : String :=
  match requestFromGemini env (answerPrompt question lesson_context student_answer) with
  | .ok (.str t) => pyStrip t
  | _ => answer_question_locally question lesson_context

/-! ## `data_store.py` -/

/-- `StudentProgress`: the dataclass of `data_store.py`.  The two lists hold
the raw JSON entry dicts (`main.py` appends plain dicts and `load_progress`
stores whatever the payload holds). -/
structure StudentProgress where
  student_id : String
  completed_lessons : List PyValue
  completed_tests : List PyValue
deriving DecidableEq

/-- `dataclasses.asdict(progress)` followed by `json.dump(..., sort_keys=True)`:
the persisted JSON object with its keys in sorted order
(`completed_lessons` < `completed_tests` < `student_id`). -/
def asdictProgress (p : StudentProgress) : PyValue :=
  .dict [("completed_lessons", .list p.completed_lessons),
         ("completed_tests", .list p.completed_tests),
         ("student_id", .str p.student_id)]

/-- `StudentProgress.from_dict`: `student_id` is taken from the argument, the
two lists from `payload.get(..., [])`.  `save_progress` always writes a JSON
object whose list fields are lists, so the defaulting branches mirror the
`.get` defaults. -/
def StudentProgress.from_dict (payload : PyValue) (student_id : String) : StudentProgress :=
  { student_id := student_id
    completed_lessons :=
      match payload with
      | .dict d =>
        match assocGet d "completed_lessons" with
        | some (.list xs) => xs
        | _ => []
      | _ => []
    completed_tests :=
      match payload with
      | .dict d =>
        match assocGet d "completed_tests" with
        | some (.list xs) => xs
        | _ => []
      | _ => [] }

/-- The filesystem seen by `data_store.py`: a map from paths to the stored
JSON document (the `json.dump`/`json.load` text round trip is elided — both
faithfully transport these JSON values). -/
def FileStore : Type := List (String × PyValue)

/-- `_progress_path`: `os.path.join(data_dir, f"{safe_id}.json")` with
`os.sep` (`/`) replaced by `_` in the student id. -/
def _progress_path (student_id : String) (data_dir : String) : String :=
  data_dir ++ "/" ++ (student_id.replace "/" "_") ++ ".json"

/-- `save_progress`: write the serialized progress at its path. -/
def save_progress (progress : StudentProgress) (data_dir : String) (fs : FileStore) : FileStore :=
  (_progress_path progress.student_id data_dir, asdictProgress progress) :: fs

/-- `load_progress`: empty progress when the file does not exist, otherwise
`from_dict` of the stored payload. -/
def load_progress (student_id : String) (data_dir : String) (fs : FileStore) : StudentProgress :=
  match assocGet fs (_progress_path student_id data_dir) with
  | none => { student_id := student_id, completed_lessons := [], completed_tests := [] }
  | some payload => StudentProgress.from_dict payload student_id

/-! ## `main.py` — progress recording -/

/-- The `lesson_entry` dict built in `MainWindow._open_lesson`. -/
def lessonEntry (subject : String) (grade : Int) (topic : String) : PyValue :=
  .dict [("subject", .str subject), ("grade", .int grade), ("topic", .str topic)]

/-- The `test_entry` dict built in `MainWindow._record_test`. -/
def testEntry (subject : String) (grade : Int) (topic : String) (score total : Int) : PyValue :=
  .dict [("subject", .str subject), ("grade", .int grade), ("topic", .str topic),
         ("score", .int score), ("total", .int total)]

/-- The progress update of `MainWindow._open_lesson`: append the lesson entry
only when it is not already present (Python `in`, value equality). -/
def openLessonUpdate (p : StudentProgress) (subject : String) (grade : Int) (topic : String) :
    StudentProgress :=
  if lessonEntry subject grade topic ∈ p.completed_lessons then p
  else { p with completed_lessons := p.completed_lessons ++ [lessonEntry subject grade topic] }

/-- The progress update of `MainWindow._record_test`: unconditionally append
the test entry. -/
def recordTestUpdate (p : StudentProgress) (subject : String) (grade : Int) (topic : String)
    (score total : Int) : StudentProgress :=
  { p with completed_tests := p.completed_tests ++ [testEntry subject grade topic score total] }

/-- A session event that mutates the progress record. -/
inductive ProgressOp where
  | lesson (subject : String) (grade : Int) (topic : String)
  | test (subject : String) (grade : Int) (topic : String) (score total : Int)

/-- Apply one recording operation. -/
def applyOp (p : StudentProgress) : ProgressOp → StudentProgress
  | .lesson s g t => openLessonUpdate p s g t
  | .test s g t sc tot => recordTestUpdate p s g t sc tot

/-- Apply a session's sequence of recording operations. -/
def applyOps (p : StudentProgress) (ops : List ProgressOp) : StudentProgress :=
  ops.foldl applyOp p

/-! ## General lemmas -/

/-- A string whose first component is non-empty stays non-empty under
concatenation. -/
theorem append_left_ne_empty {a : String} (b : String) (ha : a.data ≠ []) :
    a ++ b ≠ "" := by
  intro he
  have hd := congrArg String.data he
  rw [String.data_append] at hd
  exact ha (List.append_eq_nil.mp hd).1

/-- A list is a prefix of itself followed by anything. -/
theorem charsPref_self_append (n b : List Char) : charsPref n (n ++ b) = true := by
  induction n with
  | nil => rfl
  | cons a as ih => simp [charsPref, ih]

/-- A list occurs in itself followed by anything. -/
theorem charsIn_self_append (n b : List Char) : charsIn n (n ++ b) = true := by
  cases n with
  | nil => cases b <;> simp [charsIn, charsPref]
  | cons a as =>
    show (charsPref (a :: as) ((a :: as) ++ b) || charsIn (a :: as) (as ++ b)) = true
    rw [charsPref_self_append, Bool.true_or]

/-- Occurrence is preserved by prepending. -/
theorem charsIn_append_left (a : List Char) {n h : List Char} (hh : charsIn n h = true) :
    charsIn n (a ++ h) = true := by
  induction a with
  | nil => simpa
  | cons c cs ih =>
    show (charsPref n (c :: (cs ++ h)) || charsIn n (cs ++ h)) = true
    rw [ih, Bool.or_true]

/-- `exceptOfOption` succeeds exactly when the option is populated. -/
theorem exceptOfOption_isOk {α : Type} (o : Option α) : (exceptOfOption o).isOk = o.isSome := by
  cases o <;> rfl

/-- `generate_lesson` either succeeds on the remote text or equals the local
fallback (with the `KeyError` propagating). -/
theorem generate_lesson_ok_or_fallback (env : GeminiEnv) (s : String) (g : Int) (t : String) :
    (generate_lesson env s g t).isOk = true ∨
    generate_lesson env s g t = exceptOfOption (generate_local_lesson s g t) := by
  unfold generate_lesson
  cases hr : requestFromGemini env (lessonPrompt s g t) with
  | error e => right; rfl
  | ok v => cases v <;> first | (left; rfl) | (right; rfl)

/-- `generate_exercises` either succeeds on the parsed remote payload or
equals the local fallback (with the `KeyError` propagating). -/
theorem generate_exercises_ok_or_fallback (env : GeminiEnv) (s : String) (g : Int) (t : String) :
    (generate_exercises env s g t).isOk = true ∨
    generate_exercises env s g t = exceptOfOption (generate_local_exercises env.shuffle s g t) := by
  unfold generate_exercises
  cases hr : exercisesAttempt env s g t with
  | error e => right; rfl
  | ok parsed => left; rfl

/-- When the remote attempt fails, `requestFromGemini` reports an error for
every prompt (the response environment does not depend on the prompt). -/
theorem requestFromGemini_error_of_fail (env : GeminiEnv)
    (hfail : env.http = .httpError ∨ env.http = .badJson ∨
      ∃ d, env.http = .ok (.dict d) ∧ assocGet d "candidates" = some (.list [])) :
    ∀ prompt, requestFromGemini env prompt = .error () := by
  intro prompt
  unfold requestFromGemini
  cases hk : keyTruthy env.apiKey with
  | false => simp
  | true =>
    rcases hfail with hf | hf | ⟨d, hf, hc⟩
    · rw [hf]; simp
    · rw [hf]; simp
    · rw [hf]; simp [hc, pyTruthy, pyIter, scanCandidates]

/-- `openLessonUpdate` preserves distinctness of `completed_lessons`. -/
theorem openLessonUpdate_nodup (p : StudentProgress) (s : String) (g : Int) (t : String)
    (h : p.completed_lessons.Nodup) : (openLessonUpdate p s g t).completed_lessons.Nodup := by
  unfold openLessonUpdate
  split
  · exact h
  · next hmem =>
    show (p.completed_lessons ++ [lessonEntry s g t]).Nodup
    rw [List.nodup_append]
    refine ⟨h, List.nodup_singleton _, fun x hx hx' => ?_⟩
    rw [List.mem_singleton] at hx'
    subst hx'
    exact hmem hx

/-- Every recording operation preserves distinctness of `completed_lessons`. -/
theorem applyOps_lessons_nodup (ops : List ProgressOp) (p : StudentProgress)
    (h : p.completed_lessons.Nodup) : (applyOps p ops).completed_lessons.Nodup := by
  induction ops generalizing p with
  | nil => exact h
  | cons op rest ih =>
    cases op with
    | lesson s g t => exact ih _ (openLessonUpdate_nodup p s g t h)
    | test s g t sc tot => exact ih _ h

/-- C4: across every sequence of lesson and quiz recording operations,
`completed_lessons` keeps at most one entry per (subject, grade, topic) triple
— recording a lesson is idempotent and a fresh lesson entry ends up with count
exactly 1 — while `completed_tests` is never deduplicated: recording the same
quiz twice appends two entries. -/
theorem c4_lesson_dedup_test_append (p : StudentProgress) (ops : List ProgressOp)
    (s : String) (g : Int) (t : String) (sc tot : Int)
    (h : p.completed_lessons.Nodup) :
    ((applyOps p ops).completed_lessons).Nodup
    ∧ openLessonUpdate (openLessonUpdate p s g t) s g t = openLessonUpdate p s g t
    ∧ (lessonEntry s g t ∉ p.completed_lessons →
        ((openLessonUpdate p s g t).completed_lessons).count (lessonEntry s g t) = 1)
    ∧ ((recordTestUpdate (recordTestUpdate p s g t sc tot) s g t sc tot).completed_tests).length
        = p.completed_tests.length + 2 := by
  refine ⟨applyOps_lessons_nodup ops p h, ?_, ?_, ?_⟩
  · by_cases hm : lessonEntry s g t ∈ p.completed_lessons
    · simp [openLessonUpdate, hm]
    · simp [openLessonUpdate, hm]
  · intro hm
    simp [openLessonUpdate, hm, List.count_append, List.count_eq_zero.mpr hm]
  · simp only [recordTestUpdate, List.length_append, List.length_singleton]

/-- Witness for C4 at a concrete session. -/
theorem c4_witness :
    ((applyOps ⟨"amelia", [], []⟩
        [ProgressOp.lesson "Mathematics" 3 "Fractions",
         ProgressOp.lesson "Mathematics" 3 "Fractions"]).completed_lessons).Nodup
    ∧ ((openLessonUpdate ⟨"amelia", [], []⟩ "Mathematics" 3 "Fractions").completed_lessons).count
        (lessonEntry "Mathematics" 3 "Fractions") = 1
    ∧ ((recordTestUpdate (recordTestUpdate ⟨"amelia", [], []⟩ "Mathematics" 3 "Fractions" 2 3)
        "Mathematics" 3 "Fractions" 2 3).completed_tests).length = 0 + 2 := by
  obtain ⟨h1, h2, h3, h4⟩ := c4_lesson_dedup_test_append ⟨"amelia", [], []⟩
    [ProgressOp.lesson "Mathematics" 3 "Fractions",
     ProgressOp.lesson "Mathematics" 3 "Fractions"]
    "Mathematics" 3 "Fractions" 2 3 List.nodup_nil
  exact ⟨h1, h3 (by decide), h4⟩

/-- C5: saving a `StudentProgress` and loading it back for the same student id
and data directory returns a structurally equal record, list order included. -/
theorem c5_progress_round_trip (p : StudentProgress) (data_dir : String) (fs : FileStore) :
    load_progress p.student_id data_dir (save_progress p data_dir fs) = p := by
  cases p with
  | mk sid ls ts =>
    simp [load_progress, save_progress, assocGet, StudentProgress.from_dict, asdictProgress,
      _progress_path]

/-- C9: every (subject, grade, topic) combination offered by the navigation
helpers has content in the local table, so `_select_content` (and with it the
local generators) cannot raise `KeyError` on navigation-derived input. -/
theorem c9_navigation_safe :
    ∀ g ∈ get_available_grades, ∀ s ∈ get_subjects_for_grade g, ∀ t ∈ get_topics s g,
      (_select_content s g t).isSome = true := by decide

/-- Witness for C9 at a concrete navigation path. -/
theorem c9_witness :
    3 ∈ get_available_grades ∧ "Mathematics" ∈ get_subjects_for_grade 3
    ∧ "Fractions" ∈ get_topics "Mathematics" 3
    ∧ (_select_content "Mathematics" 3 "Fractions").isSome = true :=
  ⟨by decide, by decide, by decide,
    c9_navigation_safe 3 (by decide) "Mathematics" (by decide) "Fractions" (by decide)⟩

/-- The local answer helper always returns one of four fixed non-empty
strings. -/
theorem answer_question_locally_ne_empty (q c : String) : answer_question_locally q c ≠ "" := by
  unfold answer_question_locally
  dsimp only
  split_ifs <;> decide

/-- C10: `answer_question_locally` is total and non-empty, its result depends
only on the question (not the context), and at the fallback level the
student's answer has no influence on the feedback. -/
theorem c10_local_feedback_question_only (q c c' ctx ans ans' : String) (env : GeminiEnv)
    (hfail : requestFromGemini env (answerPrompt q ctx ans) = .error ())
    (hfail' : requestFromGemini env (answerPrompt q ctx ans') = .error ()) :
    answer_question_locally q c ≠ ""
    ∧ answer_question_locally q c = answer_question_locally q c'
    ∧ answer_question env q ctx ans = answer_question env q ctx ans' := by
  refine ⟨answer_question_locally_ne_empty q c, rfl, ?_⟩
  unfold answer_question
  rw [hfail, hfail']

/-- Witness for C10 with an unconfigured environment. -/
theorem c10_witness :
    answer_question_locally "Why do leaves change colour?" "context one" ≠ ""
    ∧ answer_question_locally "Why do leaves change colour?" "context one"
        = answer_question_locally "Why do leaves change colour?" "context two"
    ∧ answer_question { apiKey := none, http := .httpError, jsonLoads := (fun _ => .error ()), shuffle := id } "Why do leaves change colour?" "ctx" "answer one"
      = answer_question { apiKey := none, http := .httpError, jsonLoads := (fun _ => .error ()), shuffle := id } "Why do leaves change colour?" "ctx" "answer two" :=
  c10_local_feedback_question_only "Why do leaves change colour?" "context one" "context two"
    "ctx" "answer one" "answer two" _ rfl rfl

/-- C7: for every triple present in the local content table,
`generate_local_lesson` returns a non-empty string containing the topic name
and the grade number. -/
theorem c7_local_lesson_contains_topic_and_grade (s : String) (g : Int) (t : String)
    (c : ContentEntry) (h : _select_content s g t = some c) :
    ∃ l, generate_local_lesson s g t = some l ∧ l ≠ ""
      ∧ pyIn t l = true ∧ pyIn (toString g) l = true := by
  refine ⟨"Lesson Topic: " ++ (t ++ ("\nGrade Level: " ++ (toString g ++ ("\nSubject: " ++
      (s ++ ("\n\nBig Idea: " ++ (c.concept ++ ("\n\nKey Learning:\n" ++
      (c.lesson ++ "\n\nTry sketching or acting out the idea to help it stick!"))))))))),
    ?_, ?_, ?_, ?_⟩
  · simp only [generate_local_lesson, h, Option.map_some']
  · exact append_left_ne_empty _ (by decide)
  · unfold pyIn
    simp only [String.data_append]
    exact charsIn_append_left _ (charsIn_self_append _ _)
  · unfold pyIn
    simp only [String.data_append]
    exact charsIn_append_left _ (charsIn_append_left _ (charsIn_append_left _
      (charsIn_self_append _ _)))

/-- Witness for C7 at the Science grade-4 Energy topic. -/
theorem c7_witness :
    ∃ l, generate_local_lesson "Science" 4 "Energy" = some l ∧ l ≠ ""
      ∧ pyIn "Energy" l = true ∧ pyIn (toString (4 : Int)) l = true :=
  c7_local_lesson_contains_topic_and_grade "Science" 4 "Energy"
    ⟨"Energy is the ability to do work. It can take many forms such as light, heat, and movement. Energy can change from one form to another, like when electricity powers a lamp.",
     "Observing energy transfers in everyday situations."⟩ rfl

/-- Every base question text is non-empty. -/
theorem base_questions_fst_ne (s t con : String) :
    ∀ qa ∈ base_questions s t con, qa.1 ≠ "" := by
  have hb : ∀ qa ∈ ([("Explain the main idea of " ++ (t.toLower ++ " in your own words."), con),
      ("Give a real-life example related to " ++ (t.toLower ++ "."), con)] :
      List (String × String)), qa.1 ≠ "" := by
    intro qa hqa
    rcases List.mem_cons.mp hqa with rfl | hqa
    · exact append_left_ne_empty _ (by decide)
    · rcases List.mem_cons.mp hqa with rfl | hqa
      · exact append_left_ne_empty _ (by decide)
      · exact absurd hqa (List.not_mem_nil _)
  intro qa hqa
  unfold base_questions at hqa
  dsimp only at hqa
  split_ifs at hqa
  · rcases List.mem_append.mp hqa with h2 | h2
    · exact hb qa h2
    · rw [List.mem_singleton] at h2; subst h2; decide
  · rcases List.mem_append.mp hqa with h2 | h2
    · exact hb qa h2
    · rw [List.mem_singleton] at h2; subst h2; decide
  · rcases List.mem_append.mp hqa with h2 | h2
    · exact hb qa h2
    · rw [List.mem_singleton] at h2; subst h2; decide
  · exact hb qa hqa

/-- The base question list is never empty. -/
theorem base_questions_ne_nil (s t con : String) : base_questions s t con ≠ [] := by
  unfold base_questions
  dsimp only
  split_ifs <;> simp

/-- C8: for every triple present in the local content table,
`generate_local_exercises` returns at least one exercise with non-empty
question and hint, and while the order depends on the shuffle, the set of
questions is the same for any two permutations (fixed seed ⇒ fixed set). -/
theorem c8_local_exercises_valid_and_stable (σ σ' : ShuffleFn)
    (hσ : ∀ l, (σ l).Perm l) (hσ' : ∀ l, (σ' l).Perm l)
    (s : String) (g : Int) (t : String) (c : ContentEntry)
    (h : _select_content s g t = some c) :
    ∃ exs exs', generate_local_exercises σ s g t = some exs
      ∧ generate_local_exercises σ' s g t = some exs'
      ∧ exs ≠ []
      ∧ (∀ e ∈ exs, e.question ≠ "" ∧ e.hint ≠ "")
      ∧ (∀ q, q ∈ exs.map Exercise.question ↔ q ∈ exs'.map Exercise.question) := by
  refine ⟨(σ (base_questions s t c.concept)).map (fun qa =>
      { question := qa.1, expected_answer := qa.2, hint := "Think about: " ++ c.concept }),
    (σ' (base_questions s t c.concept)).map (fun qa =>
      { question := qa.1, expected_answer := qa.2, hint := "Think about: " ++ c.concept }),
    ?_, ?_, ?_, ?_, ?_⟩
  · simp only [generate_local_exercises, h, Option.map_some']
  · simp only [generate_local_exercises, h, Option.map_some']
  · intro he
    rw [List.map_eq_nil_iff] at he
    have hlen := (hσ (base_questions s t c.concept)).length_eq
    rw [he] at hlen
    simp only [List.length_nil] at hlen
    exact base_questions_ne_nil s t c.concept (List.length_eq_zero.mp hlen.symm)
  · intro e he
    rcases List.mem_map.mp he with ⟨qa, hqa, rfl⟩
    have hmem := (hσ (base_questions s t c.concept)).mem_iff.mp hqa
    exact ⟨base_questions_fst_ne s t c.concept qa hmem, append_left_ne_empty _ (by decide)⟩
  · intro q
    constructor
    · intro hq
      rcases List.mem_map.mp hq with ⟨e, he, rfl⟩
      rcases List.mem_map.mp he with ⟨qa, hqa, rfl⟩
      have hmem : qa ∈ base_questions s t c.concept := (hσ _).mem_iff.mp hqa
      exact List.mem_map.mpr ⟨_, List.mem_map.mpr ⟨qa, (hσ' _).mem_iff.mpr hmem, rfl⟩, rfl⟩
    · intro hq
      rcases List.mem_map.mp hq with ⟨e, he, rfl⟩
      rcases List.mem_map.mp he with ⟨qa, hqa, rfl⟩
      have hmem : qa ∈ base_questions s t c.concept := (hσ' _).mem_iff.mp hqa
      exact List.mem_map.mpr ⟨_, List.mem_map.mpr ⟨qa, (hσ _).mem_iff.mpr hmem, rfl⟩, rfl⟩

/-- Witness for C8 with the identity and the reversal shuffles. -/
theorem c8_witness :
    ∃ exs exs', generate_local_exercises id "Mathematics" 3 "Multiplication" = some exs
      ∧ generate_local_exercises List.reverse "Mathematics" 3 "Multiplication" = some exs'
      ∧ exs ≠ []
      ∧ (∀ e ∈ exs, e.question ≠ "" ∧ e.hint ≠ "")
      ∧ (∀ q, q ∈ exs.map Exercise.question ↔ q ∈ exs'.map Exercise.question) :=
  c8_local_exercises_valid_and_stable id List.reverse (fun l => List.Perm.refl l)
    (fun l => l.reverse_perm) "Mathematics" 3 "Multiplication"
    ⟨"Multiplication is repeated addition. To find 3 × 4, add 4 three times (4 + 4 + 4 = 12). Arrays and equal groups help us visualise multiplication problems.",
     "Building fluency with times tables up to 5."⟩ rfl

/-- C1: if the remote attempt fails (HTTP error status, malformed JSON body,
or an empty candidate list), `generate_lesson` and `generate_exercises`
return exactly the corresponding local generator's value on the same inputs
(with the local `KeyError` embedding as the error case). -/
theorem c1_remote_failure_is_local_result (env : GeminiEnv) (s : String) (g : Int) (t : String)
    (hfail : env.http = .httpError ∨ env.http = .badJson ∨
      ∃ d, env.http = .ok (.dict d) ∧ assocGet d "candidates" = some (.list [])) :
    generate_lesson env s g t = exceptOfOption (generate_local_lesson s g t)
    ∧ generate_exercises env s g t = exceptOfOption (generate_local_exercises env.shuffle s g t) := by
  have hreq := requestFromGemini_error_of_fail env hfail
  constructor
  · unfold generate_lesson
    rw [hreq]
  · unfold generate_exercises exercisesAttempt
    rw [hreq]

/-- Witness for C1 with an HTTP 500 environment. -/
theorem c1_witness :
    generate_lesson { apiKey := some "key", http := .httpError, jsonLoads := (fun _ => .error ()), shuffle := id } "Mathematics" 3 "Fractions"
      = exceptOfOption (generate_local_lesson "Mathematics" 3 "Fractions")
    ∧ generate_exercises { apiKey := some "key", http := .httpError, jsonLoads := (fun _ => .error ()), shuffle := id } "Mathematics" 3 "Fractions"
      = exceptOfOption (generate_local_exercises id "Mathematics" 3 "Fractions") :=
  c1_remote_failure_is_local_result
    { apiKey := some "key", http := .httpError, jsonLoads := (fun _ => .error ()), shuffle := id }
    "Mathematics" 3 "Fractions" (Or.inl rfl)

/-- C2: the three content operations never raise past their boundary: for any
environment the only failure `generate_lesson`/`generate_exercises` can
report is the local lookup's `KeyError` on a triple absent from the table
(and on a present triple they always succeed), while `answer_question` is
total and falls back to the local helper. -/
theorem c2_errors_absorbed_except_keyerror (env : GeminiEnv) (s : String) (g : Int) (t : String)
    (q ctx ans : String) :
    ((generate_lesson env s g t).isOk = false → _select_content s g t = none)
    ∧ ((generate_exercises env s g t).isOk = false → _select_content s g t = none)
    ∧ ((_select_content s g t).isSome = true →
        (generate_lesson env s g t).isOk = true ∧ (generate_exercises env s g t).isOk = true)
    ∧ (requestFromGemini env (answerPrompt q ctx ans) = .error () →
        answer_question env q ctx ans = answer_question_locally q ctx) := by
  have hles := generate_lesson_ok_or_fallback env s g t
  have hexs := generate_exercises_ok_or_fallback env s g t
  refine ⟨?_, ?_, ?_, ?_⟩
  · intro hko
    rcases hles with hok | hfb
    · rw [hok] at hko; cases hko
    · rw [hfb, exceptOfOption_isOk] at hko
      unfold generate_local_lesson at hko
      cases hsel : _select_content s g t with
      | none => rfl
      | some c => rw [hsel] at hko; cases hko
  · intro hko
    rcases hexs with hok | hfb
    · rw [hok] at hko; cases hko
    · rw [hfb, exceptOfOption_isOk] at hko
      unfold generate_local_exercises at hko
      cases hsel : _select_content s g t with
      | none => rfl
      | some c => rw [hsel] at hko; cases hko
  · intro hsome
    cases hsel : _select_content s g t with
    | none => rw [hsel] at hsome; cases hsome
    | some c =>
      constructor
      · rcases hles with hok | hfb
        · exact hok
        · rw [hfb, exceptOfOption_isOk]
          unfold generate_local_lesson
          rw [hsel]
          rfl
      · rcases hexs with hok | hfb
        · exact hok
        · rw [hfb, exceptOfOption_isOk]
          unfold generate_local_exercises
          rw [hsel]
          rfl
  · intro hfail
    unfold answer_question
    rw [hfail]

/-- Witness for C2 with a missing API key on a valid triple. -/
theorem c2_witness :
    ((_select_content "Science" 3 "Life Cycles").isSome = true →
        (generate_lesson { apiKey := none, http := .badJson, jsonLoads := (fun _ => .error ()), shuffle := id } "Science" 3 "Life Cycles").isOk = true
        ∧ (generate_exercises { apiKey := none, http := .badJson, jsonLoads := (fun _ => .error ()), shuffle := id } "Science" 3 "Life Cycles").isOk = true)
    ∧ answer_question { apiKey := none, http := .badJson, jsonLoads := (fun _ => .error ()), shuffle := id } "why" "lesson text" "an answer"
        = answer_question_locally "why" "lesson text" :=
  ⟨(c2_errors_absorbed_except_keyerror
      { apiKey := none, http := .badJson, jsonLoads := (fun _ => .error ()), shuffle := id }
      "Science" 3 "Life Cycles" "why" "lesson text" "an answer").2.2.1,
   (c2_errors_absorbed_except_keyerror
      { apiKey := none, http := .badJson, jsonLoads := (fun _ => .error ()), shuffle := id }
      "Science" 3 "Life Cycles" "why" "lesson text" "an answer").2.2.2 rfl⟩

/-- C6: when the remote endpoint returns a well-formed payload whose
candidate/part scan yields a first truthy text, the operation returns exactly
that text stripped of surrounding whitespace — for every triple, so the local
fallback is never consulted. -/
theorem c6_remote_success_returns_stripped_text (env : GeminiEnv) (s : String) (g : Int)
    (t : String) (d : List (String × PyValue)) (cands : List PyValue) (txt : String)
    (hkey : keyTruthy env.apiKey = true)
    (hhttp : env.http = .ok (.dict d))
    (hc : assocGet d "candidates" = some (.list cands))
    (hscan : scanCandidates cands = .ok (some (.str txt))) :
    generate_lesson env s g t = .ok (pyStrip txt) := by
  have hreq : requestFromGemini env (lessonPrompt s g t) = .ok (.str txt) := by
    unfold requestFromGemini
    rw [hkey, hhttp]
    cases cands with
    | nil => simp [scanCandidates] at hscan
    | cons c0 cs => simp [hc, pyTruthy, pyIter, hscan]
  unfold generate_lesson
  rw [hreq]

/-- Witness for C6: a payload with one candidate, on a triple absent from the
local table. -/
theorem c6_witness :
    generate_lesson { apiKey := some "k", http := .ok (.dict [("candidates", .list [.dict [("content", .dict [("parts", .list [.dict [("text", .str "  Keep hydrated!  ")]])])]])]), jsonLoads := (fun _ => .error ()), shuffle := id } "History" 7 "Rome"
      = .ok (pyStrip "  Keep hydrated!  ") :=
  c6_remote_success_returns_stripped_text _ "History" 7 "Rome"
    [("candidates", .list [.dict [("content", .dict [("parts", .list [.dict [("text", .str "  Keep hydrated!  ")]])])]])]
    [.dict [("content", .dict [("parts", .list [.dict [("text", .str "  Keep hydrated!  ")]])])]]
    "  Keep hydrated!  " rfl rfl rfl rfl

/-- C3: the exercise JSON parse drops exactly the entries whose `question`
field is missing or empty after stripping (the general filter law and the
concrete two-entry instance, with the default hint when `hint` is absent),
and a parse failure, a non-list result, or zero surviving exercises makes the
remote attempt count as failure, so the local fallback is returned. -/
theorem c3_exercise_parsing (env : GeminiEnv) (s : String) (g : Int) (t : String) :
    (∀ entries : List PyValue, (∀ e ∈ entries, ∃ d, e = PyValue.dict d) →
      parseEntries entries = .ok (entries.filterMap fun e =>
        match e with
        | .dict d =>
          if pyStrip (pyStr ((assocGet d "question").getD (.str ""))) = "" then none
          else some { question := pyStrip (pyStr ((assocGet d "question").getD (.str ""))),
                      expected_answer :=
                        pyStrip (pyStr ((assocGet d "expected_answer").getD (.str ""))),
                      hint := pyStr ((assocGet d "hint").getD (.str "Use clues from the lesson.")) }
        | _ => none))
    ∧ parseEntries [PyValue.dict [("expected_answer", .str "stray")],
        PyValue.dict [("question", .str " What is 1/2 of 8? "), ("expected_answer", .str "4")]]
      = .ok [{ question := "What is 1/2 of 8?", expected_answer := "4",
               hint := "Use clues from the lesson." }]
    ∧ (∀ text : String, requestFromGemini env (exercisesPrompt s g t) = .ok (.str text) →
        (env.jsonLoads text = .error ()
          ∨ (∃ v, env.jsonLoads text = .ok v ∧ ∀ es, v ≠ .list es)
          ∨ (∃ es, env.jsonLoads text = .ok (.list es) ∧ parseEntries es = .error ())
          ∨ (∃ es, env.jsonLoads text = .ok (.list es) ∧ parseEntries es = .ok [])) →
        generate_exercises env s g t
          = exceptOfOption (generate_local_exercises env.shuffle s g t)) := by
  refine ⟨?_, rfl, ?_⟩
  · intro entries hdicts
    induction entries with
    | nil => rfl
    | cons e rest ih =>
      rcases hdicts e (List.mem_cons_self e rest) with ⟨d, rfl⟩
      have ihr := ih fun x hx => hdicts x (List.mem_cons_of_mem _ hx)
      by_cases hq : pyStrip (pyStr ((assocGet d "question").getD (.str ""))) = ""
      · simp [parseEntries, ihr, List.filterMap_cons, hq]
      · simp [parseEntries, ihr, List.filterMap_cons, hq]
  · intro text hreq hbad
    have hatt : exercisesAttempt env s g t = .error () := by
      unfold exercisesAttempt
      rw [hreq]
      dsimp only
      rcases hbad with hb | ⟨v, hv, hnl⟩ | ⟨es, hv, hpe⟩ | ⟨es, hv, hpe⟩
      · rw [hb]
      · rw [hv]
        cases v with
        | list es => exact absurd rfl (hnl es)
        | null => rfl
        | bool b => rfl
        | int n => rfl
        | str s2 => rfl
        | dict d2 => rfl
      · rw [hv]
        dsimp only
        rw [hpe]
      · rw [hv]
        dsimp only
        rw [hpe]
        rfl
    unfold generate_exercises
    rw [hatt]

/-- Witness for C3: the general law on a one-entry list, the concrete
instance, and the fallback on a non-list JSON result. -/
theorem c3_witness :
    parseEntries [PyValue.dict [("question", .str "Q1")]]
      = .ok ([PyValue.dict [("question", .str "Q1")]].filterMap fun e =>
          match e with
          | .dict d =>
            if pyStrip (pyStr ((assocGet d "question").getD (.str ""))) = "" then none
            else some { question := pyStrip (pyStr ((assocGet d "question").getD (.str ""))),
                        expected_answer :=
                          pyStrip (pyStr ((assocGet d "expected_answer").getD (.str ""))),
                        hint := pyStr ((assocGet d "hint").getD (.str "Use clues from the lesson.")) }
          | _ => none)
    ∧ parseEntries [PyValue.dict [("expected_answer", .str "stray")],
        PyValue.dict [("question", .str " What is 1/2 of 8? "), ("expected_answer", .str "4")]]
      = .ok [{ question := "What is 1/2 of 8?", expected_answer := "4",
               hint := "Use clues from the lesson." }]
    ∧ generate_exercises { apiKey := some "k", http := .ok (.dict [("candidates", .list [.dict [("content", .dict [("parts", .list [.dict [("text", .str "not json")]])])]])]), jsonLoads := (fun _ => .ok (.int 0)), shuffle := id } "Mathematics" 3 "Fractions"
      = exceptOfOption (generate_local_exercises id "Mathematics" 3 "Fractions") := by
  obtain ⟨hA, hB, hC⟩ := c3_exercise_parsing
    { apiKey := some "k", http := .ok (.dict [("candidates", .list [.dict [("content", .dict [("parts", .list [.dict [("text", .str "not json")]])])]])]), jsonLoads := (fun _ => .ok (.int 0)), shuffle := id }
    "Mathematics" 3 "Fractions"
  refine ⟨hA [PyValue.dict [("question", .str "Q1")]] ?_, hB, ?_⟩
  · intro e he
    rw [List.mem_singleton] at he
    subst he
    exact ⟨_, rfl⟩
  · exact hC "not json" rfl (Or.inr (Or.inl ⟨.int 0, rfl, fun es h => nomatch h⟩))
